import Mathlib

/-!
Shallow embedding of the timer-driven distance-meter firmware
(`proyecto2_e3.c`), the LED dispatch exercise (`ejercicio_3_proyecto_1.c`),
the analog replay signal source and the BCD conversion helper, together
with theorems about the behaviour of these embedded programs.

Conventions:
* C global state is threaded explicitly through a `E3State` record.
* Peripheral drivers (HC-SR04, UART transport, LED/LCD hardware) are out
  of scope; sensor readings enter as parameters, UART output is collected
  as a list of strings, LED/LCD state is recorded abstractly.
* Machine integers are modelled as `Nat`; the period arithmetic never
  approaches the 32-bit range given the program's constants.
-/

/-! ### Constants of proyecto2_e3.c -/

/-- `#define CONFIG_MEASURE_PERIOD 1000 * 1000` (microseconds). -/
def CONFIG_MEASURE_PERIOD : Nat := 1000 * 1000

/-- `#define TIEMPO_DE_LECTURA_MINIMO 100 * 1000` (microseconds). -/
def TIEMPO_DE_LECTURA_MINIMO : Nat := 100 * 1000

/-- `#define TIEMPO_DE_LECTURA_MAXIMO 2000 * 1000` (microseconds). -/
def TIEMPO_DE_LECTURA_MAXIMO : Nat := 2000 * 1000

/-- `#define TIEMPO_DE_LECTURA_STEP 100` (the literal value in the source). -/
def TIEMPO_DE_LECTURA_STEP : Nat := 100

/-- `#define MIN_DIST 10` (cm). -/
def MIN_DIST : Nat := 10

/-- `#define MED_DIST 20` (cm). -/
def MED_DIST : Nat := 20

/-- `#define MAX_DIST 30` (cm). -/
def MAX_DIST : Nat := 30

/-! ### LED and LCD sink state -/

/-- On/off state of the three indicator LEDs (`LED_1`, `LED_2`, `LED_3`). -/
structure LedsState where
  led1 : Bool
  led2 : Bool
  led3 : Bool
deriving DecidableEq, Repr

/-- `LedsOffAll()`: all three LEDs off. -/
def ledsAllOff : LedsState := ⟨false, false, false⟩

/-- Global state of `proyecto2_e3.c`: the three mode flags, the timer
period (`timer_medir.period`, microseconds), and the visual sinks.
The LCD is `none` when cleared by `LcdItsE0803Off()` and `some v` after
`LcdItsE0803Write(v)`. -/
structure E3State where
  medir : Bool
  hold : Bool
  pulgadas : Bool
  period : Nat
  leds : LedsState
  lcd : Option Nat
deriving DecidableEq, Repr

/-- State at `app_main`: flags at their initialisers
(`medir = true`, `hold = false`, `pulgadas = false`), period at
`CONFIG_MEASURE_PERIOD`, sinks cleared by the init calls. -/
def initE3 : E3State :=
  { medir := true, hold := false, pulgadas := false,
    period := CONFIG_MEASURE_PERIOD, leds := ledsAllOff, lcd := none }

/-- `encenderLedSegunDistancia`: threshold-driven LED update.  Faithful to
the if/else-if chain of the source; the trailing `else` branch (no guard
matches) is unreachable but kept for fidelity. -/
def encenderLedSegunDistancia (distance : Nat) (leds : LedsState) : LedsState :=
  if distance < MIN_DIST then
    ledsAllOff
  else if MIN_DIST ≤ distance ∧ distance < MED_DIST then
    ⟨true, false, false⟩
  else if MED_DIST ≤ distance ∧ distance < MAX_DIST then
    ⟨true, true, false⟩
  else if MAX_DIST ≤ distance then
    ⟨true, true, true⟩
  else
    leds

/-- `tecla_1()`: toggle `medir`; when the new value is false, force the
LEDs off and clear the LCD immediately. -/
def tecla_1 (s : E3State) : E3State :=
  let s' := { s with medir := !s.medir }
  if s'.medir = false then { s' with leds := ledsAllOff, lcd := none } else s'

/-- `tecla_2()`: toggle `hold`. -/
def tecla_2 (s : E3State) : E3State := { s with hold := !s.hold }

/-! ### Command decoder (`leer_teclado`) -/

/-- Byte value of the command character `O`. -/
def byte_O : Nat := Char.toNat 'O'

/-- Byte value of the command character `H`. -/
def byte_H : Nat := Char.toNat 'H'

/-- Byte value of the command character `I`. -/
def byte_I : Nat := Char.toNat 'I'

/-- Byte value of the command character `M`. -/
def byte_M : Nat := Char.toNat 'M'

/-- Byte value of the command character `F`. -/
def byte_F : Nat := Char.toNat 'F'

/-- Byte value of the command character `S`. -/
def byte_S : Nat := Char.toNat 'S'

/-- `leer_teclado`: reads one byte, echoes it (`UartSendByte`), then
dispatches on it.  Returns the new global state and the list of bytes
echoed on the UART (always exactly the received byte).  `TimerUpdatePeriod`
is a driver call; its effect is captured by the `period` field. -/
def leer_teclado (s : E3State) (letra : Nat) : E3State × List Nat :=
  let echo := [letra]
  let s' :=
    if letra = byte_O then tecla_1 s
    else if letra = byte_H then tecla_2 s
    else if letra = byte_I then { s with pulgadas := !s.pulgadas }
    else if letra = byte_M then s
    else if letra = byte_F then
      (if s.period > TIEMPO_DE_LECTURA_MINIMO then
        { s with period := s.period - TIEMPO_DE_LECTURA_STEP }
      else s)
    else if letra = byte_S then
      (if s.period < TIEMPO_DE_LECTURA_MAXIMO then
        { s with period := s.period + TIEMPO_DE_LECTURA_STEP }
      else s)
    else s
  (s', echo)

/-- Fold `leer_teclado` over a byte sequence, keeping only the state. -/
def decodeBytes (s : E3State) (bs : List Nat) : E3State :=
  bs.foldl (fun s b => (leer_teclado s b).1) s

/-! ### Serial transmission and the worker-task cycle -/

/-- `mandar_distancia`: the concatenation of the four `UartSendString`
payloads — literal prefix, `UartItoa(distancia, 10)` (decimal digits),
and the unit suffix with CRLF chosen by the `pulgadas` flag. -/
def mandar_distancia (pulgadas : Bool) (distancia : Nat) : String :=
  "Distancia: " ++ Nat.repr distancia ++
    (if pulgadas then " in\r\n" else " cm\r\n")

/-- One iteration of `Medir_MostrarPantalla_Task` after the notification
is taken.  `readCm`/`readIn` are the values the HC-SR04 driver would
return this cycle from `HcSr04ReadDistanceInCentimeters` /
`HcSr04ReadDistanceInInches`.  Returns the new state and the list of
messages sent on the serial channel during the cycle. -/
def cycleE3 (s : E3State) (readCm readIn : Nat) : E3State × List String :=
  let distancia : Nat := 0
  let (distancia, msgs) :=
    if s.medir = true ∧ s.pulgadas = false then
      (readCm, [mandar_distancia s.pulgadas readCm])
    else if s.medir = true ∧ s.pulgadas = true then
      (readIn, [mandar_distancia s.pulgadas readIn])
    else (distancia, [])
  let s' :=
    if s.hold = false ∧ s.medir = true then
      { s with leds := encenderLedSegunDistancia distancia s.leds,
               lcd := some distancia }
    else s
  (s', msgs)

/-! ### Whole-system events (timer fires, UART bytes, switches) -/

/-- An external stimulus of the proyecto2_e3 system: a UART byte, a press
of switch 1 (`tecla_1`) or switch 2 (`tecla_2`), or a timer-fired worker
cycle carrying the sensor readings of that cycle. -/
inductive E3Event where
  | uart (b : Nat)
  | sw1
  | sw2
  | fire (readCm readIn : Nat)
deriving DecidableEq, Repr

/-- Is this event the enable toggle (switch 1 or the byte `O`)? -/
def isEnableToggle : E3Event → Bool
  | .uart b => b == byte_O
  | .sw1 => true
  | _ => false

/-- Apply one event; collect the distance messages transmitted (command
echoes are single bytes, tracked separately by `leer_teclado`). -/
def stepE3 (s : E3State) (e : E3Event) : E3State × List String :=
  match e with
  | .uart b => ((leer_teclado s b).1, [])
  | .sw1 => (tecla_1 s, [])
  | .sw2 => (tecla_2 s, [])
  | .fire rc ri => cycleE3 s rc ri

/-- Run a sequence of events, concatenating the transmitted messages. -/
def runE3 (s : E3State) : List E3Event → E3State × List String
  | [] => (s, [])
  | e :: es =>
    let p := stepE3 s e
    let q := runE3 p.1 es
    (q.1, p.2 ++ q.2)

/-! ### Replay signal source (analog I/O program, `sampleSignal`) -/

/-- The `test_signal` array of the analog program: 231 entries, copied
literally from the initialiser. -/
def test_signal : List Nat :=
  [1, 2, 3, 4, 5, 6, 7, 8, 9, 10, 11, 12, 13, 14, 15, 16, 17, 18, 19, 20,
   21, 22, 23, 24, 25, 26, 27, 28, 29, 30, 31, 32, 33, 34, 35, 36, 37, 38, 39, 40,
   41, 42, 43, 44, 45, 46, 47, 48, 49, 50, 51, 52, 53, 54, 55, 56, 57, 58, 59, 60,
   61, 62, 63, 64, 65, 66, 67, 68, 69, 70, 71, 72, 73, 74, 75, 76, 77, 78, 79, 80,
   81, 82, 83, 84, 85, 86, 87, 88, 89, 90, 91, 92, 93, 94, 95, 96, 97, 98, 99, 100,
   101, 102, 103, 104, 105, 106, 107, 108, 109, 110, 111, 112, 113, 114, 115, 116, 117, 118, 119, 120,
   121, 122, 123, 124, 125, 126, 127, 128, 129, 130, 131, 132, 133, 134, 135, 136, 137, 138, 139, 140,
   141, 142, 143, 144, 145, 146, 147, 148, 149, 150, 151, 152, 153, 154, 155, 156, 157, 158, 159, 160,
   161, 162, 163, 164, 165, 166, 167, 168, 169, 170, 171, 172, 173, 174, 175, 176, 177, 178, 179, 180,
   181, 182, 183, 184, 185, 186, 187, 188, 189, 190, 191, 192, 193, 194, 195, 196, 197, 198, 199, 200,
   201, 202, 203, 204, 205, 206, 207, 208, 209, 210, 211, 212, 213, 214, 215, 216, 217, 218, 219, 220,
   221, 222, 223, 224, 225, 226, 227, 228, 229, 230, 231]

/-- `sampleSignal()`: returns `test_signal[sample_index]` and the updated
`sample_index` — incremented while below `SIGNAL_SIZE - 1`, reset to `0`
at the last element.  The global `sample_index` is passed explicitly. -/
def sampleSignal (sample_index : Nat) : Nat × Nat :=
  (test_signal.getD sample_index 0,
   if sample_index < test_signal.length - 1 then sample_index + 1 else 0)

/-- The cursor after `k` calls to `sampleSignal`, starting from the
initial global `sample_index = 0`. -/
def indexAfter : Nat → Nat
  | 0 => 0
  | k + 1 => (sampleSignal (indexAfter k)).2

/-- The value returned by the `k`-th call to `sampleSignal` (0-based),
starting from the initial global state. -/
def nthSample (k : Nat) : Nat := (sampleSignal (indexAfter k)).1

/-! ### LED dispatch exercise (`ejercicio_3_proyecto_1.c`) -/

/-- `#define ON 1`. -/
def mode_ON : Nat := 1

/-- `#define OFF 0`. -/
def mode_OFF : Nat := 0

/-- `#define TOGGLE 2`. -/
def mode_TOGGLE : Nat := 2

/-- The `LED_1` / `LED_2` / `LED_3` constants of the external `led.h`. -/
inductive Led where
  | led1
  | led2
  | led3
deriving DecidableEq, Repr

/-- One observable driver call made by `function_leds`: an `LedOn`,
`LedOff` or `LedToggle` on a given LED, or one `vTaskDelay` tick. -/
inductive LedAction where
  | ledOn (l : Led)
  | ledOff (l : Led)
  | ledToggle (l : Led)
  | delay
deriving DecidableEq, Repr

/-- `struct Tleds`: mode, LED selector, cycle count and period. -/
structure Tleds where
  mode : Nat
  n_led : Led
  n_ciclos : Nat
  periodo : Nat
deriving DecidableEq, Repr

/-- The body of `case ON` in `function_leds`: inner switch on `n_led`. -/
def onCaseBody (l : Led) : List LedAction := [LedAction.ledOn l]

/-- The body of `case OFF` in `function_leds`. -/
def offCaseBody (l : Led) : List LedAction := [LedAction.ledOff l]

/-- The body of `case TOGGLE` in `function_leds`: `n_ciclos` iterations,
each toggling the LED and then delaying `periodo` ticks. -/
def toggleCaseBody (l : Led) (n_ciclos periodo : Nat) : List LedAction :=
  (List.range n_ciclos).flatMap
    (fun _ => LedAction.ledToggle l :: List.replicate periodo LedAction.delay)

/-- `function_leds` (lines 89–147 of `ejercicio_3_proyecto_1.c`): the
outer `switch(ptr->mode)` has NO `break` between its cases, so `case ON`
falls through into `case OFF` and then `case TOGGLE`, and `case OFF`
falls through into `case TOGGLE`.  The trace records the driver calls in
execution order. -/
def function_leds (p : Tleds) : List LedAction :=
  if p.mode = mode_ON then
    onCaseBody p.n_led ++ offCaseBody p.n_led ++
      toggleCaseBody p.n_led p.n_ciclos p.periodo
  else if p.mode = mode_OFF then
    offCaseBody p.n_led ++ toggleCaseBody p.n_led p.n_ciclos p.periodo
  else if p.mode = mode_TOGGLE then
    toggleCaseBody p.n_led p.n_ciclos p.periodo
  else []

/-! ### BCD conversion (`convertToBcdArray`, LCD display programs) -/

/-- The loop of `convertToBcdArray`: `for (i = digits-1; i >= 0; i--)
{ bcd_number[i] = data % 10; data /= 10; }`.  Index `digits-1` is written
first from the incoming `data`, the lower indices from `data / 10`. -/
def bcdLoop (data : Nat) : Nat → List Nat
  | 0 => []
  | d + 1 => bcdLoop (data / 10) d ++ [data % 10]

/-- `convertToBcdArray(data, digits, bcd_number)`: returns the `int8_t`
result (always `0`) and the contents of the output array. -/
def convertToBcdArray (data : Nat) (digits : Nat) : Int × List Nat :=
  (0, bcdLoop data digits)

/-! ## Theorems -/

/-- The period invariant maintained by the command decoder: the period is
within the configured bounds and is a multiple of the step. -/
def periodInv (s : E3State) : Prop :=
  TIEMPO_DE_LECTURA_MINIMO ≤ s.period ∧
    s.period ≤ TIEMPO_DE_LECTURA_MAXIMO ∧ s.period % 100 = 0

theorem tecla_1_period (s : E3State) : (tecla_1 s).period = s.period := by
  simp only [tecla_1]
  split <;> rfl

theorem leer_teclado_periodInv (s : E3State) (b : Nat) (h : periodInv s) :
    periodInv (leer_teclado s b).1 := by
  obtain ⟨h1, h2, h3⟩ := h
  simp only [leer_teclado, periodInv]
  split
  · refine ⟨?_, ?_, ?_⟩ <;> rw [tecla_1_period] <;> assumption
  split
  · exact ⟨h1, h2, h3⟩
  split
  · exact ⟨h1, h2, h3⟩
  split
  · exact ⟨h1, h2, h3⟩
  split
  · split
    · simp only [TIEMPO_DE_LECTURA_MINIMO, TIEMPO_DE_LECTURA_MAXIMO,
        TIEMPO_DE_LECTURA_STEP] at *
      omega
    · exact ⟨h1, h2, h3⟩
  split
  · split
    · simp only [TIEMPO_DE_LECTURA_MINIMO, TIEMPO_DE_LECTURA_MAXIMO,
        TIEMPO_DE_LECTURA_STEP] at *
      omega
    · exact ⟨h1, h2, h3⟩
  exact ⟨h1, h2, h3⟩

theorem decodeBytes_periodInv (bs : List Nat) (s : E3State) (h : periodInv s) :
    periodInv (decodeBytes s bs) := by
  induction bs generalizing s with
  | nil => exact h
  | cons b bs ih => exact ih _ (leer_teclado_periodInv s b h)

theorem cycleE3_period (s : E3State) (readCm readIn : Nat) :
    (cycleE3 s readCm readIn).1.period = s.period := by
  simp only [cycleE3]
  split <;> rfl

theorem stepE3_periodInv (s : E3State) (e : E3Event) (h : periodInv s) :
    periodInv (stepE3 s e).1 := by
  cases e with
  | uart b => exact leer_teclado_periodInv s b h
  | sw1 =>
    obtain ⟨h1, h2, h3⟩ := h
    refine ⟨?_, ?_, ?_⟩ <;>
      rw [show (stepE3 s E3Event.sw1).1 = tecla_1 s from rfl, tecla_1_period] <;>
      assumption
  | sw2 => exact h
  | fire rc ri =>
    obtain ⟨h1, h2, h3⟩ := h
    refine ⟨?_, ?_, ?_⟩ <;>
      rw [show (stepE3 s (E3Event.fire rc ri)).1 = (cycleE3 s rc ri).1 from rfl,
        cycleE3_period] <;>
      assumption

theorem runE3_periodInv (es : List E3Event) (s : E3State) (h : periodInv s) :
    periodInv (runE3 s es).1 := by
  induction es generalizing s with
  | nil => exact h
  | cons e es ih => exact ih _ (stepE3_periodInv s e h)

theorem leer_teclado_F_at_min (s : E3State)
    (h : s.period = TIEMPO_DE_LECTURA_MINIMO) :
    (leer_teclado s byte_F).1 = s := by
  have hO : byte_F ≠ byte_O := by decide
  have hH : byte_F ≠ byte_H := by decide
  have hI : byte_F ≠ byte_I := by decide
  have hM : byte_F ≠ byte_M := by decide
  simp [leer_teclado, hO, hH, hI, hM, h]

theorem leer_teclado_S_at_max (s : E3State)
    (h : s.period = TIEMPO_DE_LECTURA_MAXIMO) :
    (leer_teclado s byte_S).1 = s := by
  have hO : byte_S ≠ byte_O := by decide
  have hH : byte_S ≠ byte_H := by decide
  have hI : byte_S ≠ byte_I := by decide
  have hM : byte_S ≠ byte_M := by decide
  have hF : byte_S ≠ byte_F := by decide
  simp [leer_teclado, hO, hH, hI, hM, hF, h]

/-- C2: the timer period satisfies the bound invariant at every reachable
state: starting from the documented default period, for every event trace
`es` (timer cycles, switch presses and command bytes, so
`(runE3 initE3 es).1` ranges over every reachable state) and every further
sequence `bs` of command bytes processed by the decoder — in particular
every sequence of `F` and `S` bytes — the period stays within
`[TIEMPO_DE_LECTURA_MINIMO, TIEMPO_DE_LECTURA_MAXIMO]`; and an `F`
(respectively `S`) received while the period sits at the minimum
(respectively maximum) bound leaves the whole state unchanged — a no-op,
not an error. -/
theorem C2_period_bounds :
    (∀ (es : List E3Event) (bs : List Nat),
       TIEMPO_DE_LECTURA_MINIMO ≤
           (decodeBytes (runE3 initE3 es).1 bs).period ∧
         (decodeBytes (runE3 initE3 es).1 bs).period ≤
           TIEMPO_DE_LECTURA_MAXIMO) ∧
    (∀ s : E3State, s.period = TIEMPO_DE_LECTURA_MINIMO →
       (leer_teclado s byte_F).1 = s) ∧
    (∀ s : E3State, s.period = TIEMPO_DE_LECTURA_MAXIMO →
       (leer_teclado s byte_S).1 = s) := by
  refine ⟨fun es bs => ?_, leer_teclado_F_at_min, leer_teclado_S_at_max⟩
  have h0 : periodInv initE3 := by
    refine ⟨?_, ?_, ?_⟩ <;> decide
  have h := decodeBytes_periodInv bs _ (runE3_periodInv es initE3 h0)
  exact ⟨h.1, h.2.1⟩

/-- Witness for C2: a reachable state after one `F` byte and a timer
cycle, followed by one more `F`; then an `F` at the minimum bound and an
`S` at the maximum bound. -/
theorem C2_witness :
    (TIEMPO_DE_LECTURA_MINIMO ≤
        (decodeBytes
          (runE3 initE3 [E3Event.uart byte_F, E3Event.fire 42 16]).1
          [byte_F]).period ∧
       (decodeBytes
          (runE3 initE3 [E3Event.uart byte_F, E3Event.fire 42 16]).1
          [byte_F]).period ≤ TIEMPO_DE_LECTURA_MAXIMO) ∧
    (leer_teclado
      { medir := true, hold := false, pulgadas := false,
        period := TIEMPO_DE_LECTURA_MINIMO, leds := ledsAllOff, lcd := none }
      byte_F).1 =
      { medir := true, hold := false, pulgadas := false,
        period := TIEMPO_DE_LECTURA_MINIMO, leds := ledsAllOff, lcd := none } ∧
    (leer_teclado
      { medir := true, hold := false, pulgadas := false,
        period := TIEMPO_DE_LECTURA_MAXIMO, leds := ledsAllOff, lcd := none }
      byte_S).1 =
      { medir := true, hold := false, pulgadas := false,
        period := TIEMPO_DE_LECTURA_MAXIMO, leds := ledsAllOff, lcd := none } :=
  ⟨C2_period_bounds.1 [E3Event.uart byte_F, E3Event.fire 42 16] [byte_F],
    C2_period_bounds.2.1 _ rfl, C2_period_bounds.2.2 _ rfl⟩

/-- C5 counterexample: with the period at 2000 ms (2 000 000 µs in the
code's unit), eight consecutive `F` bytes leave the period at
1 999 200 µs — the step constant is the literal `100`, so the period does
not floor at 1000 ms (1 000 000 µs) as the claim states. -/
theorem C5_counterexample :
    (decodeBytes
      { medir := true, hold := false, pulgadas := false,
        period := 2000 * 1000, leds := ledsAllOff, lcd := none }
      (List.replicate 8 byte_F)).period = 1999200 ∧
    (1999200 : Nat) ≠ 1000 * 1000 := by
  constructor
  · rfl
  · decide

/-- C5 amended: with the period at 2000 ms (2 000 000 µs), each `F`
decreases the period by the step constant `TIEMPO_DE_LECTURA_STEP = 100`
(µs), so eight consecutive `F` bytes bring it to 1 999 200 µs; the period
never goes below the stated minimum `TIEMPO_DE_LECTURA_MINIMO`
(100 000 µs = 100 ms) under any further command bytes, and an `F`
received at that minimum leaves the state unchanged. -/
theorem C5_amended_step_and_floor :
    (decodeBytes
      { medir := true, hold := false, pulgadas := false,
        period := 2000 * 1000, leds := ledsAllOff, lcd := none }
      (List.replicate 8 byte_F)).period =
        2000 * 1000 - 8 * TIEMPO_DE_LECTURA_STEP ∧
    (∀ bs : List Nat,
       TIEMPO_DE_LECTURA_MINIMO ≤
         (decodeBytes
           { medir := true, hold := false, pulgadas := false,
             period := 2000 * 1000, leds := ledsAllOff, lcd := none }
           bs).period) ∧
    (∀ s : E3State, s.period = TIEMPO_DE_LECTURA_MINIMO →
       (leer_teclado s byte_F).1 = s) := by
  refine ⟨rfl, fun bs => ?_, leer_teclado_F_at_min⟩
  have h0 : periodInv
      { medir := true, hold := false, pulgadas := false,
        period := 2000 * 1000, leds := ledsAllOff, lcd := none } := by
    refine ⟨?_, ?_, ?_⟩ <;> decide
  exact (decodeBytes_periodInv bs _ h0).1

/-- Witness for the amended C5: empty byte sequence for the floor bound
and an `F` at the minimum. -/
theorem C5_amended_witness :
    TIEMPO_DE_LECTURA_MINIMO ≤
      (decodeBytes
        { medir := true, hold := false, pulgadas := false,
          period := 2000 * 1000, leds := ledsAllOff, lcd := none }
        []).period ∧
    (leer_teclado
      { medir := false, hold := true, pulgadas := true,
        period := TIEMPO_DE_LECTURA_MINIMO, leds := ledsAllOff, lcd := none }
      byte_F).1 =
      { medir := false, hold := true, pulgadas := true,
        period := TIEMPO_DE_LECTURA_MINIMO, leds := ledsAllOff, lcd := none } :=
  ⟨C5_amended_step_and_floor.2.1 [], C5_amended_step_and_floor.2.2 _ rfl⟩

theorem leer_teclado_not_O_fields (s : E3State) (b : Nat) (hb : b ≠ byte_O) :
    (leer_teclado s b).1.medir = s.medir ∧
      (leer_teclado s b).1.leds = s.leds ∧
      (leer_teclado s b).1.lcd = s.lcd := by
  simp only [leer_teclado, tecla_2]
  split
  · exact absurd (by assumption) hb
  split
  · exact ⟨rfl, rfl, rfl⟩
  split
  · exact ⟨rfl, rfl, rfl⟩
  split
  · exact ⟨rfl, rfl, rfl⟩
  split
  · split <;> exact ⟨rfl, rfl, rfl⟩
  split
  · split <;> exact ⟨rfl, rfl, rfl⟩
  exact ⟨rfl, rfl, rfl⟩

theorem stepE3_preserves_off (s : E3State) (e : E3Event)
    (hm : s.medir = false) (hl : s.leds = ledsAllOff) (hd : s.lcd = none)
    (he : isEnableToggle e = false) :
    (stepE3 s e).1.medir = false ∧ (stepE3 s e).1.leds = ledsAllOff ∧
      (stepE3 s e).1.lcd = none ∧ (stepE3 s e).2 = [] := by
  cases e with
  | uart b =>
    have hb : b ≠ byte_O := by
      intro hcontra
      simp [isEnableToggle, hcontra] at he
    obtain ⟨p1, p2, p3⟩ := leer_teclado_not_O_fields s b hb
    exact ⟨p1.trans hm, p2.trans hl, p3.trans hd, rfl⟩
  | sw1 => simp [isEnableToggle] at he
  | sw2 => exact ⟨hm, hl, hd, rfl⟩
  | fire rc ri => simp [stepE3, cycleE3, hm, hl, hd]

theorem runE3_preserves_off (es : List E3Event) (s : E3State)
    (hm : s.medir = false) (hl : s.leds = ledsAllOff) (hd : s.lcd = none)
    (he : ∀ e ∈ es, isEnableToggle e = false) :
    (runE3 s es).1.medir = false ∧ (runE3 s es).1.leds = ledsAllOff ∧
      (runE3 s es).1.lcd = none ∧ (runE3 s es).2 = [] := by
  induction es generalizing s with
  | nil => exact ⟨hm, hl, hd, rfl⟩
  | cons e es ih =>
    obtain ⟨h1, h2, h3, h4⟩ :=
      stepE3_preserves_off s e hm hl hd (he e (List.mem_cons_self e es))
    obtain ⟨g1, g2, g3, g4⟩ :=
      ih (stepE3 s e).1 h1 h2 h3 (fun e' h' => he e' (List.mem_cons_of_mem e h'))
    refine ⟨g1, g2, g3, ?_⟩
    simp only [runE3]
    rw [h4, g4]
    rfl

/-- C4: toggling `medir` off (`tecla_1`, reached from switch 1 and from
the byte `O`) forces the LEDs off and clears the LCD at the moment of the
toggle; and from any state with `medir = false` and the sinks off, every
sequence of events that contains no enable toggle — hold toggles, unit
toggles, other command bytes and any number of timer-fired cycles —
keeps `medir = false`, keeps the sinks off, and transmits nothing. -/
theorem C4_disabled_sinks_off :
    (∀ s : E3State, s.medir = true →
       (tecla_1 s).medir = false ∧ (tecla_1 s).leds = ledsAllOff ∧
         (tecla_1 s).lcd = none) ∧
    (∀ (s : E3State) (es : List E3Event),
       s.medir = false → s.leds = ledsAllOff → s.lcd = none →
       (∀ e ∈ es, isEnableToggle e = false) →
       (runE3 s es).1.medir = false ∧ (runE3 s es).1.leds = ledsAllOff ∧
         (runE3 s es).1.lcd = none ∧ (runE3 s es).2 = []) := by
  constructor
  · intro s hs
    simp [tecla_1, hs]
  · intro s es hm hl hd he
    exact runE3_preserves_off es s hm hl hd he

/-- Witness for C4: the disabling toggle from the initial state, then a
hold toggle, a unit toggle, a slower command and two timer cycles. -/
theorem C4_witness :
    ((tecla_1 initE3).medir = false ∧ (tecla_1 initE3).leds = ledsAllOff ∧
      (tecla_1 initE3).lcd = none) ∧
    ((runE3
      { medir := false, hold := false, pulgadas := false,
        period := CONFIG_MEASURE_PERIOD, leds := ledsAllOff, lcd := none }
      [E3Event.sw2, E3Event.uart byte_I, E3Event.uart byte_S,
       E3Event.fire 42 16, E3Event.fire 7 2]).1.medir = false ∧
     (runE3
      { medir := false, hold := false, pulgadas := false,
        period := CONFIG_MEASURE_PERIOD, leds := ledsAllOff, lcd := none }
      [E3Event.sw2, E3Event.uart byte_I, E3Event.uart byte_S,
       E3Event.fire 42 16, E3Event.fire 7 2]).1.leds = ledsAllOff ∧
     (runE3
      { medir := false, hold := false, pulgadas := false,
        period := CONFIG_MEASURE_PERIOD, leds := ledsAllOff, lcd := none }
      [E3Event.sw2, E3Event.uart byte_I, E3Event.uart byte_S,
       E3Event.fire 42 16, E3Event.fire 7 2]).1.lcd = none ∧
     (runE3
      { medir := false, hold := false, pulgadas := false,
        period := CONFIG_MEASURE_PERIOD, leds := ledsAllOff, lcd := none }
      [E3Event.sw2, E3Event.uart byte_I, E3Event.uart byte_S,
       E3Event.fire 42 16, E3Event.fire 7 2]).2 = []) :=
  ⟨C4_disabled_sinks_off.1 initE3 rfl,
    C4_disabled_sinks_off.2 _ _ rfl rfl rfl (by decide)⟩

theorem test_signal_length_eq : test_signal.length = 231 := by rfl

set_option maxRecDepth 8000 in
theorem sampleSignal_snd (i : Nat) :
    (sampleSignal i).2 = if i < 230 then i + 1 else 0 := rfl

theorem indexAfter_eq_mod (k : Nat) : indexAfter k = k % 231 := by
  induction k with
  | zero => rfl
  | succ k ih =>
    show (sampleSignal (indexAfter k)).2 = _
    rw [ih, sampleSignal_snd]
    split <;> omega

/-- C7: the replay signal source is periodic with period equal to the
length of the backing sequence: the value returned by the
`(len + k)`-th call to `sampleSignal` equals the value returned by the
`k`-th call, the cursor itself is periodic, and more generally any whole
number `n` of periods can be skipped. -/
theorem C7_replay_periodic (k n : Nat) :
    nthSample (test_signal.length + k) = nthSample k ∧
    indexAfter (test_signal.length + k) = indexAfter k ∧
    nthSample (n * test_signal.length + k) = nthSample k := by
  have hidx : ∀ m : Nat, indexAfter (test_signal.length + m) = indexAfter m := by
    intro m
    rw [indexAfter_eq_mod, indexAfter_eq_mod, test_signal_length_eq]
    omega
  have hn : indexAfter (n * test_signal.length + k) = indexAfter k := by
    rw [indexAfter_eq_mod, indexAfter_eq_mod, test_signal_length_eq]
    omega
  refine ⟨?_, hidx k, ?_⟩
  · unfold nthSample
    rw [hidx k]
  · unfold nthSample
    rw [hn]

/-- C8: for every received byte outside `{O, H, I, F, S}` the command
decoder leaves the whole shared state — `medir`, `hold`, `pulgadas` and
the timer period — unchanged and produces no failure (the decoder has no
error outcome: it always returns a state and its echo), and every
accepted token is echoed back exactly once on the serial channel. -/
theorem C8_decoder_unknown_bytes (s : E3State) (b : Nat) :
    (¬(b = byte_O ∨ b = byte_H ∨ b = byte_I ∨ b = byte_F ∨ b = byte_S) →
       (leer_teclado s b).1 = s) ∧
    ((b = byte_O ∨ b = byte_H ∨ b = byte_I ∨ b = byte_F ∨ b = byte_S) →
       (leer_teclado s b).2 = [b]) := by
  refine ⟨fun h => ?_, fun _ => rfl⟩
  push_neg at h
  obtain ⟨hO, hH, hI, hF, hS⟩ := h
  simp only [leer_teclado, if_neg hO, if_neg hH, if_neg hI, if_neg hF,
    if_neg hS]
  split <;> rfl

/-- Witness for C8: the byte `M` (outside the token set) is a state
no-op, and the accepted token `H` is echoed exactly once. -/
theorem C8_witness :
    (leer_teclado initE3 byte_M).1 = initE3 ∧
    (leer_teclado initE3 byte_H).2 = [byte_H] :=
  ⟨(C8_decoder_unknown_bytes initE3 byte_M).1 (by decide),
    (C8_decoder_unknown_bytes initE3 byte_H).2 (Or.inr (Or.inl rfl))⟩

/-- C9: `function_leds` does NOT execute its modes independently — the
missing `break` statements make `case ON` fall through.  At the input
`{mode = ON, n_led = LED_1, n_ciclos = 1, periodo = 0}` the trace is
`LedOn(LED_1); LedOff(LED_1); LedToggle(LED_1)`: the OFF and TOGGLE
action sets run after the ON action, so the LED ends up toggled from off
rather than simply on, contradicting the claim (and the documented
intent that each mode execute independently). -/
theorem C9_on_mode_falls_through :
    function_leds
      { mode := mode_ON, n_led := Led.led1, n_ciclos := 1, periodo := 0 } =
      [LedAction.ledOn Led.led1, LedAction.ledOff Led.led1,
        LedAction.ledToggle Led.led1] ∧
    function_leds
      { mode := mode_ON, n_led := Led.led1, n_ciclos := 1, periodo := 0 } ≠
      [LedAction.ledOn Led.led1] := by
  constructor
  · rfl
  · decide

theorem bcdLoop_length (data d : Nat) : (bcdLoop data d).length = d := by
  induction d generalizing data with
  | zero => rfl
  | succ d ih => simp [bcdLoop, ih]

theorem bcdLoop_getD (d data i : Nat) (hi : i < d) :
    (bcdLoop data d).getD i 0 = data / 10 ^ (d - 1 - i) % 10 := by
  induction d generalizing data i with
  | zero => omega
  | succ d ih =>
    rcases Nat.lt_succ_iff_lt_or_eq.mp hi with h | h
    · rw [bcdLoop, List.getD_append _ _ _ _ (by rw [bcdLoop_length]; exact h),
        ih (data / 10) i h, Nat.div_div_eq_div_mul]
      have he : d + 1 - 1 - i = (d - 1 - i) + 1 := by omega
      rw [he, pow_succ, Nat.mul_comm]
    · subst h
      rw [bcdLoop, List.getD_eq_getElem?_getD, List.getElem?_append_right
        (by rw [bcdLoop_length])]
      simp [bcdLoop_length]

/-- C10: for every data value and digit count `d ≥ 1`,
`convertToBcdArray` produces exactly the `d` least-significant decimal
digits of `data`, most significant first — position `i` holds
`data / 10 ^ (d - 1 - i) % 10`, which is always below 10 — and the
function returns 0. -/
theorem C10_convertToBcdArray (data digits i : Nat)
    (_h32 : data < 2 ^ 32) (_hd : 1 ≤ digits) (hi : i < digits) :
    (convertToBcdArray data digits).1 = 0 ∧
    (convertToBcdArray data digits).2.length = digits ∧
    (convertToBcdArray data digits).2.getD i 0 =
      data / 10 ^ (digits - 1 - i) % 10 ∧
    (convertToBcdArray data digits).2.getD i 0 < 10 := by
  refine ⟨rfl, bcdLoop_length data digits, bcdLoop_getD digits data i hi, ?_⟩
  rw [show (convertToBcdArray data digits).2 = bcdLoop data digits from rfl,
    bcdLoop_getD digits data i hi]
  exact Nat.mod_lt _ (by norm_num)

/-- Witness for C10 at `data = 127`, `digits = 3`: the array is
`[1, 2, 7]` digit by digit. -/
theorem C10_witness :
    (127 : Nat) < 2 ^ 32 ∧ (1 : Nat) ≤ 3 ∧ (0 : Nat) < 3 ∧
    ((convertToBcdArray 127 3).1 = 0 ∧
     (convertToBcdArray 127 3).2.length = 3 ∧
     (convertToBcdArray 127 3).2.getD 0 0 = 127 / 10 ^ (3 - 1 - 0) % 10 ∧
     (convertToBcdArray 127 3).2.getD 0 0 < 10) :=
  ⟨by norm_num, by norm_num, by norm_num,
    C10_convertToBcdArray 127 3 0 (by norm_num) (by norm_num) (by norm_num)⟩

/-- C1: In every worker-task cycle in which `medir` is true, exactly one
message is transmitted on the serial channel, equal to the literal prefix
`Distancia: `, the decimal rendering of the measured value, the unit
suffix ` cm` or ` in` selected by `pulgadas`, and a CRLF terminator; the
state `s` is arbitrary, so in particular this holds for both values of
`hold`. -/
theorem C1_cycle_transmits_once (s : E3State) (readCm readIn : Nat)
    (h : s.medir = true) :
    (cycleE3 s readCm readIn).2 =
      ["Distancia: " ++ Nat.repr (if s.pulgadas then readIn else readCm) ++
        (if s.pulgadas then " in\r\n" else " cm\r\n")] := by
  cases hp : s.pulgadas <;>
    simp [cycleE3, mandar_distancia, h, hp]

/-- Witness for C1 at a concrete held, enabled state and reading 42 cm. -/
theorem C1_witness :
    ({ medir := true, hold := true, pulgadas := false,
       period := CONFIG_MEASURE_PERIOD, leds := ledsAllOff,
       lcd := none } : E3State).medir = true ∧
    (cycleE3
      { medir := true, hold := true, pulgadas := false,
        period := CONFIG_MEASURE_PERIOD, leds := ledsAllOff, lcd := none }
      42 16).2 = ["Distancia: " ++ Nat.repr 42 ++ " cm\r\n"] :=
  ⟨rfl, C1_cycle_transmits_once _ 42 16 rfl⟩

/-- C3: When `hold` is true and `medir` is true, a worker-task cycle
leaves the LED indicator state and the LCD display exactly as they were
before the cycle (in fact the whole state is unchanged). -/
theorem C3_hold_preserves_visual_sinks (s : E3State) (readCm readIn : Nat)
    (h1 : s.hold = true) (_h2 : s.medir = true) :
    (cycleE3 s readCm readIn).1.leds = s.leds ∧
    (cycleE3 s readCm readIn).1.lcd = s.lcd := by
  simp [cycleE3, h1]

/-- Witness for C3 at a concrete held, enabled state. -/
theorem C3_witness :
    (cycleE3
      { medir := true, hold := true, pulgadas := false,
        period := CONFIG_MEASURE_PERIOD,
        leds := ⟨true, true, false⟩, lcd := some 25 }
      7 3).1.leds = ⟨true, true, false⟩ ∧
    (cycleE3
      { medir := true, hold := true, pulgadas := false,
        period := CONFIG_MEASURE_PERIOD,
        leds := ⟨true, true, false⟩, lcd := some 25 }
      7 3).1.lcd = some 25 :=
  C3_hold_preserves_visual_sinks _ 7 3 rfl rfl

/-- C6 counterexample: at a concrete state with `hold = true` and
`medir = true`, the cycle does read the sensor and does transmit — the
message list of the cycle is the transmission of the fresh reading 42,
not the empty list the claim requires. -/
theorem C6_counterexample :
    (cycleE3
      { medir := true, hold := true, pulgadas := false,
        period := CONFIG_MEASURE_PERIOD, leds := ledsAllOff, lcd := none }
      42 16).2 = ["Distancia: 42 cm\r\n"] ∧
    (["Distancia: 42 cm\r\n"] : List String) ≠ ([] : List String) := by
  constructor
  · rfl
  · simp

/-- C6 amended: when `hold` is true and `medir` is true, the worker-task
cycle still reads a new sample and transmits it on the serial channel;
`hold` only suppresses the visual-sink updates, leaving the state (LEDs,
LCD and flags) unchanged. -/
theorem C6_amended_cycle_still_transmits (s : E3State) (readCm readIn : Nat)
    (h1 : s.hold = true) (h2 : s.medir = true) :
    (cycleE3 s readCm readIn).2 =
      [mandar_distancia s.pulgadas (if s.pulgadas then readIn else readCm)] ∧
    (cycleE3 s readCm readIn).1 = s := by
  cases hp : s.pulgadas <;>
    simp [cycleE3, h1, h2, hp]

/-- Witness for the amended C6 at a concrete held, enabled state. -/
theorem C6_amended_witness :
    (cycleE3
      { medir := true, hold := true, pulgadas := true,
        period := CONFIG_MEASURE_PERIOD, leds := ledsAllOff, lcd := none }
      42 16).2 = [mandar_distancia true 16] ∧
    (cycleE3
      { medir := true, hold := true, pulgadas := true,
        period := CONFIG_MEASURE_PERIOD, leds := ledsAllOff, lcd := none }
      42 16).1 =
      { medir := true, hold := true, pulgadas := true,
        period := CONFIG_MEASURE_PERIOD, leds := ledsAllOff, lcd := none } :=
  C6_amended_cycle_still_transmits _ 42 16 rfl rfl
